import Mathlib

/-!
Verification of the CompareIt core pipeline (src/compare_it) against its
natural-language specification.

The Rust source is shallowly embedded:
* machine integers (`u64`, `usize`) become `Nat`;
* `f64` similarity scores and tolerances become exact rationals `ℚ`
  (no claim below depends on IEEE rounding);
* `PathBuf` becomes a list of path components (`List String`);
* file contents become byte lists (`List Nat`) where byte-level behaviour
  matters (type detection), and decoded line lists elsewhere;
* fallible I/O becomes `Option`/`Except` arguments: the outcome of a read
  is passed to the embedded function instead of being performed;
* external crates (blake3, DefaultHasher, the `similar` diff engine, the
  `csv` parser) are not repository code; their outputs are modelled either
  as explicit inputs (diff transcripts, parsed rows) or as simple
  executable stand-ins whose load-bearing properties (digest width) match.
-/

namespace CompareIt

/-- File type detected during indexing (types.rs, enum FileType). -/
inductive FileType where
  | Text
  | Csv
  | Tsv
  | Binary
  | Unknown
deriving DecidableEq, Repr

/-- types.rs: `FileType::is_structured`. -/
def FileType.is_structured : FileType → Bool
  | .Csv | .Tsv => true
  | _ => false

/-- A filesystem path, as its list of components (Rust `PathBuf`). -/
abbrev Path := List String

/-- Rust `Path::display().to_string()`: components joined by the separator. -/
def pathDisplay (p : Path) : String := String.intercalate "/" p

/-- Rust `Path::file_name()`: the last component (model; the Rust corner
cases `..`/root do not occur for indexed regular files). -/
def fileName (p : Path) : Option String := p.getLast?

/-- types.rs: struct FileEntry. One indexed file. -/
structure FileEntry where
  path : Path
  size : Nat
  file_type : FileType
  extension : String
  content_hash : String
  simhash : Option Nat
  schema_signature : Option String
  line_count : Nat
  columns : Option (List String)
deriving DecidableEq, Repr

/-- types.rs: struct CandidatePair (estimated similarity as exact `ℚ`). -/
structure CandidatePair where
  file1 : FileEntry
  file2 : FileEntry
  estimated_similarity : ℚ
  exact_hash_match : Bool
deriving DecidableEq, Repr

/-- fingerprint.rs: `hamming_distance` — number of differing bits of two
64-bit fingerprints (`(h1 ^ h2).count_ones()`). -/
def hamming_distance (h1 h2 : Nat) : Nat :=
  ((List.range 64).filter (fun i => (Nat.xor h1 h2).testBit i)).length

/-- fingerprint.rs: `simhash_similarity` — `1 - distance/64`, exact. -/
def simhash_similarity (h1 h2 : Nat) : ℚ :=
  1 - (hamming_distance h1 h2 : ℚ) / 64

/-- match_files.rs: schema-signature equality used by `estimate_similarity`
(both present and equal). -/
def schema_sig_eq (f1 f2 : FileEntry) : Bool :=
  match f1.schema_signature, f2.schema_signature with
  | some s1, some s2 => s1 = s2
  | _, _ => false

/-- match_files.rs: `estimate_similarity` — fingerprint-based similarity
estimate; the `f64` arithmetic is modelled exactly over `ℚ`. -/
def estimate_similarity (f1 f2 : FileEntry) : ℚ :=
  if f1.content_hash ≠ "" ∧ f1.content_hash = f2.content_hash then 1
  else
    match f1.simhash, f2.simhash with
    | some h1, some h2 => simhash_similarity h1 h2
    | _, _ =>
      if schema_sig_eq f1 f2 then 1/2
      else if 0 < f1.size ∧ 0 < f2.size then
        ((min f1.size f2.size : ℚ) / (max f1.size f2.size : ℚ)) * (3/10)
      else 0

/-- match_files.rs: the four extension compatibility groups. -/
def text_exts : List String := ["txt", "log", "md", "rst", ""]

/-- match_files.rs: table extensions group. -/
def csv_exts : List String := ["csv", "tsv", "tab"]

/-- match_files.rs: code extensions group. -/
def code_exts : List String := ["rs", "py", "js", "ts", "java", "c", "cpp", "h", "hpp", "go"]

/-- match_files.rs: config extensions group. -/
def config_exts : List String := ["json", "yaml", "yml", "toml", "ini", "cfg"]

/-- match_files.rs: `in_same_group` closure. -/
def in_same_group (e1 e2 : String) (group : List String) : Bool :=
  group.contains e1 && group.contains e2

/-- match_files.rs: `extensions_compatible`. -/
def extensions_compatible (e1 e2 : String) : Bool :=
  e1 == e2
    || in_same_group e1 e2 text_exts
    || in_same_group e1 e2 csv_exts
    || in_same_group e1 e2 code_exts
    || in_same_group e1 e2 config_exts

/-- match_files.rs: `passes_blocking_rules`. Rule 1: compatible extensions;
rule 2: size ratio in [0.1, 10] when both sizes are positive (the `f64`
division is modelled by exact rational division); rule 3 in the source is
a no-op (the schema branch has an empty body); rule 4: reject exactly-one-
side-Binary. -/
def passes_blocking_rules (f1 f2 : FileEntry) : Bool :=
  if !(extensions_compatible f1.extension f2.extension) then false
  else if 0 < f1.size ∧ 0 < f2.size ∧
      ((f1.size : ℚ) / (f2.size : ℚ) < 1/10 ∨ (f1.size : ℚ) / (f2.size : ℚ) > 10) then
    false
  else
    match f1.file_type, f2.file_type with
    | .Binary, .Binary => true
    | .Binary, _ => false
    | _, .Binary => false
    | _, _ => true

/-- Stable insertion of `a` after every element it does not strictly
precede under `lt` (helper for the stable-sort model). -/
def stableInsert (lt : α → α → Bool) (a : α) : List α → List α
  | [] => [a]
  | b :: bs => if lt a b then a :: b :: bs else b :: stableInsert lt a bs

/-- Executable model of Rust's stable `slice::sort_by`: a stable insertion
sort. Any two stable sorts agree, so this is extensionally the source's
sort; `lt a b` holds when `a` must come strictly before `b`. -/
def stableSortBy (lt : α → α → Bool) : List α → List α
  | [] => []
  | a :: as => stableInsert lt a (stableSortBy lt as)

/-- match_files.rs: `match_by_path`, lookup side: the `HashMap` collected
from side 2 keyed by path keeps the last entry on duplicate keys. -/
def lookup_by_path (files2 : List FileEntry) (p : Path) : Option FileEntry :=
  (files2.filter (fun f => f.path = p)).getLast?

/-- match_files.rs: `match_by_path` — pair each side-1 entry with the
side-2 entry indexed at the identical (as-indexed, root-included) path. -/
def match_by_path (files1 files2 : List FileEntry) : List CandidatePair :=
  files1.filterMap (fun f1 =>
    (lookup_by_path files2 f1.path).map (fun f2 =>
      { file1 := f1
        file2 := f2
        estimated_similarity := estimate_similarity f1 f2
        exact_hash_match :=
          f1.content_hash ≠ "" ∧ f1.content_hash = f2.content_hash }))

/-- match_files.rs: the side-2 entries sharing a basename, in side-2
(encounter) order — the bucket of the `HashMap<&str, Vec<&FileEntry>>`. -/
def same_name_candidates (files2 : List FileEntry) (name : String) : List FileEntry :=
  files2.filter (fun f => fileName f.path = some name)

/-- Rust `Iterator::max_by` with the similarity comparator (ties resolved
as `Ordering::Equal` by `unwrap_or`): the fold keeps the accumulator only
when strictly greater, so the LAST maximal element wins. -/
def max_by_sim (f1 : FileEntry) : List FileEntry → Option FileEntry
  | [] => none
  | c :: cs =>
    some (cs.foldl (fun acc y =>
      if estimate_similarity f1 acc > estimate_similarity f1 y then acc else y) c)

/-- match_files.rs: `match_by_name` — for each side-1 entry with a
basename, pick `max_by` over the same-basename bucket of side 2. -/
def match_by_name (files1 files2 : List FileEntry) : List CandidatePair :=
  files1.filterMap (fun f1 =>
    (fileName f1.path).bind (fun name =>
      (max_by_sim f1 (same_name_candidates files2 name)).map (fun f2 =>
        { file1 := f1
          file2 := f2
          estimated_similarity := estimate_similarity f1 f2
          exact_hash_match :=
            f1.content_hash ≠ "" ∧ f1.content_hash = f2.content_hash })))

/-- State threaded through the exact-hash pass of `all_vs_all_match`:
paths matched on side 1, paths matched on side 2, pairs emitted so far. -/
structure ExactPassState where
  matched1 : List Path
  matched2 : List Path
  pairs : List CandidatePair

/-- match_files.rs, `all_vs_all_match` first pass, one side-1 entry: the
`hash_map2` bucket for a non-empty hash is the side-2 entries with that
hash in encounter order; the first still-unmatched one is consumed. -/
def exact_pass_step (files2 : List FileEntry) (st : ExactPassState)
    (f1 : FileEntry) : ExactPassState :=
  if f1.content_hash ≠ "" then
    match (files2.filter (fun f =>
        f.content_hash ≠ "" ∧ f.content_hash = f1.content_hash)).find?
        (fun f2 => !(st.matched2.contains f2.path)) with
    | some f2 =>
      { matched1 := st.matched1 ++ [f1.path]
        matched2 := st.matched2 ++ [f2.path]
        pairs := st.pairs ++ [{ file1 := f1, file2 := f2,
                                estimated_similarity := 1,
                                exact_hash_match := true }] }
    | none => st
  else st

/-- match_files.rs: the whole exact-hash pass over side 1. -/
def exact_pass (files1 files2 : List FileEntry) : ExactPassState :=
  files1.foldl (exact_pass_step files2) ⟨[], [], []⟩

/-- match_files.rs, second pass: blocked-then-scored candidates for one
unmatched side-1 entry, in side-2 encounter order. -/
def sim_candidates (unmatched2 : List FileEntry) (f1 : FileEntry) :
    List (FileEntry × ℚ) :=
  (unmatched2.filter (fun f2 => passes_blocking_rules f1 f2)).map
    (fun f2 => (f2, estimate_similarity f1 f2))

/-- match_files.rs: `all_vs_all_match` — exact-hash pass, Top-K similarity
pass over the unmatched residue, stable sort of everything by descending
estimated similarity, `max_pairs` truncation. -/
def all_vs_all_match (files1 files2 : List FileEntry) (top_k : Nat)
    (max_pairs : Option Nat) : List CandidatePair :=
  let st := exact_pass files1 files2
  let unmatched1 := files1.filter (fun f => !(st.matched1.contains f.path))
  let unmatched2 := files2.filter (fun f => !(st.matched2.contains f.path))
  let sim_pairs := unmatched1.flatMap (fun f1 =>
    ((stableSortBy (fun a b => a.2 > b.2) (sim_candidates unmatched2 f1)).take
        top_k).map
      (fun c => { file1 := f1, file2 := c.1,
                  estimated_similarity := c.2,
                  exact_hash_match := false }))
  let all_pairs := st.pairs ++ sim_pairs
  let sorted := stableSortBy
    (fun a b => a.estimated_similarity > b.estimated_similarity) all_pairs
  match max_pairs with
  | some m => sorted.take m
  | none => sorted

/-- Two byte-identical CSV files indexed under different extensions
(`a.csv` and `a.py`): same content hash, size, type, fingerprints. -/
def csvTwin1 : FileEntry :=
  { path := ["a.csv"], size := 8, file_type := .Csv, extension := "csv"
    content_hash := "h", simhash := some 5, schema_signature := some "s"
    line_count := 2, columns := some ["a", "b"] }

/-- The `a.py` twin of `csvTwin1`: identical bytes, incompatible extension. -/
def csvTwin2 : FileEntry :=
  { path := ["a.py"], size := 8, file_type := .Csv, extension := "py"
    content_hash := "h", simhash := some 5, schema_signature := some "s"
    line_count := 2, columns := some ["a", "b"] }

/-- A plain empty text entry whose fingerprinting failed (hash left
empty), used to exercise the similarity pass. -/
def txtEntry1 : FileEntry :=
  { path := ["x.txt"], size := 0, file_type := .Text, extension := "txt"
    content_hash := "", simhash := none, schema_signature := none
    line_count := 0, columns := none }

/-- A second such text entry, same extension. -/
def txtEntry2 : FileEntry :=
  { path := ["y.txt"], size := 0, file_type := .Text, extension := "txt"
    content_hash := "", simhash := none, schema_signature := none
    line_count := 0, columns := none }

/-- The similarity-pass pair that `all_vs_all_match [txtEntry1] [txtEntry2]`
emits: fallback estimate 0, no exact hash match. -/
def txtSimPair : CandidatePair :=
  { file1 := txtEntry1, file2 := txtEntry2
    estimated_similarity := 0, exact_hash_match := false }

/-- Split a byte sequence into lines, each line keeping its terminating
0x0A byte — the granularity at which `BufRead::read_line` consumes the
file in index.rs. -/
def splitLinesInclusive : List Nat → List (List Nat)
  | [] => []
  | b :: bs =>
    match splitLinesInclusive bs with
    | [] => [[b]]
    | l :: ls => if b = 10 then [b] :: l :: ls else (b :: l) :: ls

/-- UTF-8 validation automaton: the first argument lists the allowed
(lo, hi) ranges of the continuation bytes still expected for the current
code point. -/
def utf8ValidAux : List (Nat × Nat) → List Nat → Bool
  | [], [] => true
  | [], b :: rest =>
    if b ≤ 0x7F then utf8ValidAux [] rest
    else if 0xC2 ≤ b && b ≤ 0xDF then
      utf8ValidAux [(0x80, 0xBF)] rest
    else if b = 0xE0 then
      utf8ValidAux [(0xA0, 0xBF), (0x80, 0xBF)] rest
    else if (0xE1 ≤ b && b ≤ 0xEC) || b = 0xEE || b = 0xEF then
      utf8ValidAux [(0x80, 0xBF), (0x80, 0xBF)] rest
    else if b = 0xED then
      utf8ValidAux [(0x80, 0x9F), (0x80, 0xBF)] rest
    else if b = 0xF0 then
      utf8ValidAux [(0x90, 0xBF), (0x80, 0xBF), (0x80, 0xBF)] rest
    else if 0xF1 ≤ b && b ≤ 0xF3 then
      utf8ValidAux [(0x80, 0xBF), (0x80, 0xBF), (0x80, 0xBF)] rest
    else if b = 0xF4 then
      utf8ValidAux [(0x80, 0x8F), (0x80, 0xBF), (0x80, 0xBF)] rest
    else false
  | _ :: _, [] => false
  | (lo, hi) :: expect, b :: rest =>
    if lo ≤ b && b ≤ hi then utf8ValidAux expect rest else false

/-- UTF-8 validity of a byte sequence, as enforced by Rust when
`read_line` materialises a `String` (surrogates and overlong encodings
rejected). `read_line` returns `Err` exactly when this is false. -/
def utf8Valid (l : List Nat) : Bool := utf8ValidAux [] l

/-- ASCII whitespace byte (Rust `char::is_whitespace` restricted to the
ASCII range; the headers exercised by the claims are ASCII). -/
def isAsciiWs (b : Nat) : Bool := b = 32 || (9 ≤ b && b ≤ 13)

/-- Rust `str::trim` at byte level (ASCII whitespace). -/
def trimBytes (l : List Nat) : List Nat :=
  ((l.dropWhile isAsciiWs).reverse.dropWhile isAsciiWs).reverse

/-- Rust `str::split(delimiter)` for an ASCII delimiter byte: every
occurrence splits, empty parts kept, always at least one part. Exact at
byte level because UTF-8 continuation bytes never equal an ASCII byte. -/
def splitOnByte (delim : Nat) : List Nat → List (List Nat)
  | [] => [[]]
  | b :: bs =>
    if b = delim then [] :: splitOnByte delim bs
    else
      match splitOnByte delim bs with
      | [] => [[b]]
      | p :: ps => (b :: p) :: ps

/-- index.rs: `parse_header` — split on the delimiter; at least 2 parts
yields the trimmed parts as columns. -/
def parse_header (line : List Nat) (delim : Nat) : Option (List (List Nat)) :=
  if 2 ≤ (splitOnByte delim line).length then
    some ((splitOnByte delim line).map trimBytes)
  else none

/-- index.rs: `try_detect_structured` — at least 2 parts, and every
trimmed part non-empty, shorter than 100 bytes, without an embedded
newline. -/
def try_detect_structured (line : List Nat) (delim : Nat) :
    Option (List (List Nat)) :=
  if (splitOnByte delim line).length < 2 then none
  else if (splitOnByte delim line).all (fun p =>
      !(trimBytes p).isEmpty && (trimBytes p).length < 100 &&
        !(trimBytes p).contains 10) then
    some ((splitOnByte delim line).map trimBytes)
  else none

/-- Outcome of the 8 KiB detection loop of index.rs `detect_file_type`:
whether a null byte or a decode error was seen, the number of lines read
by the loop, the trimmed first line, and the lines left unread when the
loop stopped at the size limit. -/
structure ProbeResult where
  has_null : Bool
  line_count : Nat
  first_line : List Nat
  tail : List (List Nat)
deriving Repr

/-- index.rs `detect_file_type`, reading loop: `read_line` per line
(`Err` on invalid UTF-8 is folded into `has_null`, as in the source);
null-byte check per line; stop once 8192 cumulative bytes are read. -/
def probeLoop : List (List Nat) → Nat → Nat → List Nat → ProbeResult
  | [], _, lineCount, firstLine => ⟨false, lineCount, firstLine, []⟩
  | l :: ls, totalRead, lineCount, firstLine =>
    if !(utf8Valid l) then ⟨true, lineCount, firstLine, []⟩
    else
      let totalRead2 := totalRead + l.length
      let lineCount2 := lineCount + 1
      let firstLine2 := if lineCount2 = 1 then trimBytes l else firstLine
      if l.contains 0 then ⟨true, lineCount2, firstLine2, []⟩
      else if 8192 ≤ totalRead2 then ⟨false, lineCount2, firstLine2, ls⟩
      else probeLoop ls totalRead2 lineCount2 firstLine2

/-- index.rs `detect_file_type`, classification after the reading loop:
binary on a null byte / decode error, then the extension-driven header
parse, then content auto-detection with comma and tab, else Text. The
tail lines (present only when the probe hit the 8 KiB limit) are counted
through `reader.lines()`, which skips undecodable lines and keeps going. -/
def classify (r : ProbeResult) (extension : String) :
    FileType × Nat × Option (List (List Nat)) :=
  if r.has_null then (.Binary, 0, none)
  else
    let is_csv_ext := extension = "csv"
    let is_tsv_ext := extension = "tsv" ∨ extension = "tab"
    let line_count :=
      r.line_count + (r.tail.filter (fun l => utf8Valid l)).length
    match (if is_csv_ext ∨ is_tsv_ext then
        parse_header r.first_line (if is_tsv_ext then 9 else 44)
      else none) with
    | some cols =>
      ((if is_tsv_ext then FileType.Tsv else FileType.Csv), line_count, some cols)
    | none =>
      if r.first_line ≠ [] then
        match try_detect_structured r.first_line 44 with
        | some cols => (.Csv, line_count, some cols)
        | none =>
          match try_detect_structured r.first_line 9 with
          | some cols => (.Tsv, line_count, some cols)
          | none => (.Text, line_count, none)
      else (.Text, line_count, none)

/-- index.rs: `detect_file_type` over the file content bytes and the
lowercased extension. -/
def detect_file_type (content : List Nat) (extension : String) :
    FileType × Nat × Option (List (List Nat)) :=
  classify (probeLoop (splitLinesInclusive content) 0 0 []) extension

/-- The lines the detection loop actually examines: the prefix of the
inclusive lines whose preceding cumulative byte count is below 8192. -/
def probedLines : List (List Nat) → Nat → List (List Nat)
  | [], _ => []
  | l :: ls, tot =>
    if tot < 8192 then l :: probedLines ls (tot + l.length) else []

/-- Rust `str::ends_with(char)`: the last char equals `c` (kernel-
computable form of `String.endsWith` for one-char needles). -/
def strEndsWith (s : String) (c : Char) : Bool := s.data.getLast? = some c

/-- Bytes rendered as a Lean string, one char per byte — exact on the
ASCII inputs the claims exercise (the lossy multi-byte decoding of
`String::from_utf8_lossy` is not load-bearing for any claim). -/
def bytesToString (l : List Nat) : String := String.mk (l.map Char.ofNat)

/-- index.rs: `index_single_file` — builds the FileEntry for one file.
The filesystem reads (metadata size, content bytes) and the lowercased
extension derived from the name are passed in; the content hash is left
empty for the fingerprinting stage. -/
def index_single_file (path : Path) (size : Nat) (content : List Nat)
    (extension : String) : FileEntry :=
  match detect_file_type content extension with
  | (ft, lc, cols) =>
    { path := path, size := size, file_type := ft, extension := extension
      content_hash := "", simhash := none, schema_signature := none
      line_count := lc
      columns := cols.map (fun cs => cs.map bytesToString) }

/-- types.rs: struct NormalizationOptions. -/
structure NormalizationOptions where
  ignore_eol : Bool
  ignore_trailing_ws : Bool
  ignore_all_ws : Bool
  ignore_case : Bool
  skip_empty_lines : Bool
deriving DecidableEq, Repr

/-- All normalization switches off (the `Default` instance). -/
def normOff : NormalizationOptions := ⟨false, false, false, false, false⟩

/-- Hex digit char (lowercase), for digest rendering. -/
def hexDigit (n : Nat) : Char :=
  if n < 10 then Char.ofNat (48 + n) else Char.ofNat (87 + n)

/-- A 256-bit value as a 64-character lowercase hex string (the shape of
`blake3::Hash::to_hex`). -/
def natToHex64 (n : Nat) : String :=
  String.mk (((List.range 64).reverse).map (fun i => hexDigit ((n / 16 ^ i) % 16)))

/-- Stand-in for the external blake3 crate: a deterministic, executable
digest of the content bytes rendered as the 64-hex-char string blake3
produces. Only width, determinism and content-dependence are relied on. -/
def blake3Hex (content : List Nat) : String :=
  natToHex64 (content.foldl (fun h b => (h * 257 + b + 1) % (2 ^ 256)) 0)

/-- Stand-in for `std::collections::hash_map::DefaultHasher` (SipHash,
external): a deterministic 64-bit string hash. -/
def hash_string (s : String) : Nat :=
  s.data.foldl (fun h c => (h * 131 + c.toNat + 1) % (2 ^ 64)) 0

/-- Rust `str::lines`: split on LF, drop a final empty segment, strip a
trailing CR from each line. -/
def rustLines (text : String) : List String :=
  if text = "" then []
  else
    ((if strEndsWith text '\n' then (text.splitOn "\n").dropLast
      else text.splitOn "\n").map
      (fun l => if strEndsWith l '\r' then l.dropRight 1 else l))

/-- Rust `str::split_whitespace` (ASCII whitespace model). -/
def splitWhitespace (s : String) : List String :=
  (s.split Char.isWhitespace).filter (fun w => w ≠ "")

/-- Rust `str::trim_end` (ASCII whitespace model). -/
def trimEnd (s : String) : String :=
  String.mk (s.data.reverse.dropWhile Char.isWhitespace).reverse

/-- fingerprint.rs: `normalize_text` — per-line normalization followed by
the optional empty-line filter. -/
def normalize_text (text : String) (opts : NormalizationOptions) : List String :=
  ((rustLines text).map (fun line =>
    let s1 := if opts.ignore_trailing_ws then trimEnd line else line
    let s2 := if opts.ignore_all_ws then
        String.intercalate " " (splitWhitespace s1)
      else s1
    if opts.ignore_case then s2.toLower else s2)).filter
    (fun line => if opts.skip_empty_lines then !(line.trim.isEmpty) else true)

/-- Sliding windows of width `n` (Rust `slice::windows`): empty when the
list is shorter than `n`. -/
def listWindows (n : Nat) (l : List α) : List (List α) :=
  if l.length < n then []
  else (List.range (l.length - n + 1)).map (fun i => (l.drop i).take n)

/-- fingerprint.rs: `generate_shingles` — word n-grams over all lines
concatenated (all words joined if fewer than n), plus line n-grams when
there are at least n lines. -/
def generate_shingles (lines : List String) (n : Nat) : List String :=
  let words := lines.flatMap splitWhitespace
  (if n ≤ words.length then
      (listWindows n words).map (String.intercalate " ")
    else if words ≠ [] then [String.intercalate " " words]
    else []) ++
  (if n ≤ lines.length then
      (listWindows n lines).map (String.intercalate "\n")
    else [])

/-- fingerprint.rs: `compute_simhash` — signed per-bit votes over the
shingle hashes; bit i of the result is set iff the vote is positive. -/
def compute_simhash (text : String) (normalization : NormalizationOptions) : Nat :=
  let shingles := generate_shingles (normalize_text text normalization) 3
  (List.range 64).foldl (fun res i =>
    if 0 < shingles.foldl (fun acc s =>
        acc + (if (hash_string s).testBit i then (1 : Int) else -1)) 0 then
      res ||| (1 <<< i)
    else res) 0

/-- fingerprint.rs: `compute_schema_signature` — sort the column names,
join with a pipe, hash, keep the first 16 hex chars. The byte encoding of
the joined string is its char codes (exact on ASCII). -/
def compute_schema_signature (columns : List String) : String :=
  (blake3Hex ((String.intercalate "|"
    (stableSortBy (fun a b : String => a < b) columns)).data.map Char.toNat)).take 16

/-- fingerprint.rs: `compute_fingerprint_for_entry` — `fs::read` is
modelled by the `content` argument (`none` = read error, in which case
`compute_fingerprints` only warns and the entry is left unchanged). -/
def compute_fingerprint_for_entry (entry : FileEntry)
    (content : Option (List Nat))
    (normalization : NormalizationOptions) : FileEntry :=
  match content with
  | none => entry
  | some bytes =>
    let e := { entry with content_hash := blake3Hex bytes }
    match entry.file_type with
    | .Text =>
      { e with simhash := some (compute_simhash (bytesToString bytes) normalization) }
    | .Csv | .Tsv =>
      { e with
        schema_signature :=
          match entry.columns with
          | some cols => some (compute_schema_signature cols)
          | none => entry.schema_signature
        simhash := some (compute_simhash (bytesToString bytes) normalization) }
    | .Binary | .Unknown => e

/-- types.rs: enum CompareMode. -/
inductive CompareMode where
  | Auto
  | Text
  | Structured
deriving DecidableEq, Repr

/-- types.rs: enum SimilarityAlgorithm. -/
inductive SimilarityAlgorithm where
  | Diff
  | CharJaro
deriving DecidableEq, Repr

/-- types.rs: enum PairingStrategy. -/
inductive PairingStrategy where
  | SamePath
  | SameName
  | AllVsAll
deriving DecidableEq, Repr

/-- types.rs: struct CompareConfig (the export paths and the verbose flag
drive only the external CLI/export surface and are omitted). -/
structure CompareConfig where
  mode : CompareMode
  pairing : PairingStrategy
  top_k : Nat
  max_pairs : Option Nat
  key_columns : List String
  numeric_tolerance : ℚ
  normalization : NormalizationOptions
  similarity_algorithm : SimilarityAlgorithm
  max_diff_bytes : Nat
deriving DecidableEq, Repr

/-- types.rs: struct TextComparisonResult. -/
structure TextComparisonResult where
  linked_id : String
  file1_path : String
  file2_path : String
  file1_line_count : Nat
  file2_line_count : Nat
  common_lines : Nat
  only_in_file1 : Nat
  only_in_file2 : Nat
  similarity_score : ℚ
  different_positions : String
  detailed_diff : String
  diff_truncated : Bool
  identical : Bool
deriving DecidableEq, Repr

/-- types.rs: struct FieldMismatch. -/
structure FieldMismatch where
  key : String
  value1 : String
  value2 : String
deriving DecidableEq, Repr

/-- types.rs: struct ColumnMismatch. -/
structure ColumnMismatch where
  column_name : String
  mismatch_count : Nat
  sample_mismatches : List FieldMismatch
deriving DecidableEq, Repr

/-- types.rs: struct StructuredComparisonResult. -/
structure StructuredComparisonResult where
  linked_id : String
  file1_path : String
  file2_path : String
  file1_row_count : Nat
  file2_row_count : Nat
  common_records : Nat
  only_in_file1 : Nat
  only_in_file2 : Nat
  similarity_score : ℚ
  field_mismatches : List ColumnMismatch
  total_field_mismatches : Nat
  columns_only_in_file1 : List String
  columns_only_in_file2 : List String
  common_columns : List String
  identical : Bool
deriving DecidableEq, Repr

/-- types.rs: enum ComparisonResult — note the Error variant carries only
the two paths and the message, no linked_id field. -/
inductive ComparisonResult where
  | Text (r : TextComparisonResult)
  | Structured (r : StructuredComparisonResult)
  | HashOnly (linked_id file1_path file2_path : String)
      (file1_size file2_size : Nat) (identical : Bool)
  | Error (file1_path file2_path error : String)
deriving DecidableEq, Repr

/-- types.rs: the `ComparisonResult::linked_id` accessor — for the Error
variant it falls back to `file1_path`. -/
def ComparisonResult.linkedId : ComparisonResult → String
  | .Text r => r.linked_id
  | .Structured r => r.linked_id
  | .HashOnly lid _ _ _ _ _ => lid
  | .Error f1 _ _ => f1

/-- The linked-id format used by compare_text.rs:100-105,
compare_structured.rs:109-113 and main.rs:378-382: first 16 hex chars of
each content hash joined by a colon (byte slicing of the ASCII hex
string equals char take). -/
def mkLinkedId (h1 h2 : String) : String := h1.take 16 ++ ":" ++ h2.take 16

/-- compare_structured.rs: `get_delimiter` (tab for Tsv, else comma);
consumed by the external csv crate, whose parsing is modelled by passing
pre-parsed headers and rows to `compare_structured_files`. -/
def get_delimiter (file_type : FileType) : Nat :=
  match file_type with
  | .Tsv => 9
  | _ => 44

/-- compare_structured.rs, parse_structured_file: the key column indices
— positions in this file's header of the configured key columns, config
order, missing names skipped; the first column when none configured. -/
def key_indices (headers key_columns : List String) : List Nat :=
  if key_columns.isEmpty then [0]
  else key_columns.filterMap (fun k => headers.findIdx? (fun h => h = k))

/-- compare_structured.rs: the composite key of one record —
`record.get(i)` per key index, absent positions skipped by `filter_map`,
joined with a pipe. -/
def composite_key (key_idx : List Nat) (record : List String) : String :=
  String.intercalate "|" (key_idx.filterMap (fun i => record.get? i))

/-- compare_structured.rs: the row map of one record — header name to
value, aligned by position, positions beyond the record absent. Modelled
as an association list standing for the Rust HashMap (duplicate header
names overwrite, which `row_lookup` mirrors by taking the last entry). -/
def row_map (headers record : List String) : List (String × String) :=
  headers.enum.filterMap (fun ih => (record.get? ih.1).map (fun v => (ih.2, v)))

/-- HashMap-style lookup in a `row_map`: last insertion for a key wins. -/
def row_lookup (m : List (String × String)) (k : String) : Option String :=
  ((m.filter (fun e => e.1 = k)).getLast?).map (fun e => e.2)

/-- HashMap-style insertion for the keyed record map: replace the
existing entry for the key, else append. -/
def insert_record (m : List (String × List (String × String))) (k : String)
    (v : List (String × String)) : List (String × List (String × String)) :=
  if m.any (fun e => e.1 = k) then
    m.map (fun e => if e.1 = k then (k, v) else e)
  else m ++ [(k, v)]

/-- compare_structured.rs: `parse_structured_file` — headers plus the
record map keyed by composite key (later rows with the same key
overwrite earlier ones). The external csv crate is modelled by taking
the parsed header and records as input. -/
def parse_structured_file (headers : List String) (rows : List (List String))
    (key_columns : List String) :
    List String × List (String × List (String × String)) :=
  (headers, rows.foldl (fun m record =>
    insert_record m (composite_key (key_indices headers key_columns) record)
      (row_map headers record)) [])

/-- Duplicate removal keeping first occurrences — a deterministic model
of collecting a Rust HashSet from a list; only membership and cardinality
of the result are relied on (HashSet iteration order is unspecified). -/
def dedupAcc (seen : List String) : List String → List String
  | [] => []
  | x :: xs =>
    if seen.contains x then dedupAcc seen xs
    else x :: dedupAcc (x :: seen) xs

/-- First-occurrence distinct elements of a list of strings. -/
def distinctList (l : List String) : List String := dedupAcc [] l

/-- Decimal number parser to exact rationals, modelling the successful
cases of Rust `str::parse::<f64>` on plain decimals (sign, digits,
optional fraction); exponent/inf/nan forms are not exercised by any
claim. IEEE rounding is modelled by exact rational arithmetic. -/
def parseNum (s : String) : Option ℚ :=
  let signAndRest : ℚ × List Char :=
    match s.data with
    | c :: cs => if c = '-' then (-1, cs) else if c = '+' then (1, cs) else (1, c :: cs)
    | [] => (1, [])
  let rest := signAndRest.2
  let intPart := rest.takeWhile Char.isDigit
  let after := rest.drop intPart.length
  let intVal : Nat := intPart.foldl (fun n c => n * 10 + (c.toNat - 48)) 0
  match after with
  | [] => if intPart.isEmpty then none else some (signAndRest.1 * intVal)
  | c :: fracs =>
    if c = '.' then
      let fracDigits := fracs.takeWhile Char.isDigit
      if fracs.drop fracDigits.length = [] ∧ !(intPart.isEmpty ∧ fracDigits.isEmpty) then
        some (signAndRest.1 *
          (intVal + (fracDigits.foldl (fun n ch => n * 10 + (ch.toNat - 48)) 0 : ℚ) /
            (10 ^ fracDigits.length : ℚ)))
      else none
    else none

/-- compare_structured.rs: `values_equal` — byte-identical strings, or
both numeric within absolute or relative tolerance. -/
def values_equal (val1 val2 : String) (tolerance : ℚ) : Bool :=
  if val1 = val2 then true
  else
    match parseNum val1, parseNum val2 with
    | some n1, some n2 =>
      if |n1 - n2| ≤ tolerance then true
      else if 0 < max |n1| |n2| ∧ |n1 - n2| / max |n1| |n2| ≤ tolerance then true
      else false
    | _, _ => false

/-- Lookup of a keyed record (record-map keys are distinct). -/
def record_lookup (records : List (String × List (String × String)))
    (k : String) : Option (List (String × String)) :=
  (records.find? (fun e => e.1 = k)).map (fun e => e.2)

/-- compare_structured.rs, field-comparison loop regrouped per column:
the mismatching (key, value1, value2) triples of one common column, in
key order; absent values contribute the empty string. -/
def mismatches_for_col (records1 records2 : List (String × List (String × String)))
    (common_keys : List String) (col : String) (tolerance : ℚ) :
    List FieldMismatch :=
  common_keys.filterMap (fun k =>
    match record_lookup records1 k, record_lookup records2 k with
    | some row1, some row2 =>
      if values_equal ((row_lookup row1 col).getD "")
          ((row_lookup row2 col).getD "") tolerance then none
      else some { key := k, value1 := (row_lookup row1 col).getD ""
                  value2 := (row_lookup row2 col).getD "" }
    | _, _ => none)

/-- compare_structured.rs: `compare_structured_files` — the file reads
and csv parsing are modelled by passing each file's parsed header and
rows. Set order (Rust iterates HashSet/HashMap in unspecified order) is
fixed to first-occurrence order; only counts and membership are claimed. -/
def compare_structured_files (file1 file2 : FileEntry) (config : CompareConfig)
    (headers1 : List String) (rows1 : List (List String))
    (headers2 : List String) (rows2 : List (List String)) :
    StructuredComparisonResult :=
  let records1 := (parse_structured_file headers1 rows1 config.key_columns).2
  let records2 := (parse_structured_file headers2 rows2 config.key_columns).2
  let common_columns := (distinctList headers1).filter (fun c => headers2.contains c)
  let columns_only_in_file1 :=
    (distinctList headers1).filter (fun c => !(headers2.contains c))
  let columns_only_in_file2 :=
    (distinctList headers2).filter (fun c => !(headers1.contains c))
  let keys1 := records1.map (fun e => e.1)
  let keys2 := records2.map (fun e => e.1)
  let common_keys := keys1.filter (fun k => keys2.contains k)
  let only_in_file1_keys := keys1.filter (fun k => !(keys2.contains k))
  let only_in_file2_keys := keys2.filter (fun k => !(keys1.contains k))
  let column_mismatches :=
    (common_columns.filter (fun c => !(config.key_columns.contains c))).filterMap
      (fun col =>
        match mismatches_for_col records1 records2 common_keys col
            config.numeric_tolerance with
        | [] => none
        | m => some { column_name := col, mismatch_count := m.length
                      sample_mismatches := m.take 5 })
  let total_field_mismatches :=
    (column_mismatches.map (fun c => c.mismatch_count)).sum
  let total_records := keys1.length + keys2.length - common_keys.length
  { linked_id := mkLinkedId file1.content_hash file2.content_hash
    file1_path := pathDisplay file1.path
    file2_path := pathDisplay file2.path
    file1_row_count := records1.length
    file2_row_count := records2.length
    common_records := common_keys.length
    only_in_file1 := only_in_file1_keys.length
    only_in_file2 := only_in_file2_keys.length
    similarity_score :=
      if 0 < total_records then (common_keys.length : ℚ) / total_records else 1
    field_mismatches := column_mismatches
    total_field_mismatches := total_field_mismatches
    columns_only_in_file1 := columns_only_in_file1
    columns_only_in_file2 := columns_only_in_file2
    common_columns := common_columns
    identical := only_in_file1_keys.isEmpty && only_in_file2_keys.isEmpty &&
      total_field_mismatches = 0 }

/-- main.rs: `create_identical_result` — the exact-hash shortcut result,
in the variant matching the file kinds, without re-reading the files. -/
def create_identical_result (file1 file2 : FileEntry) : ComparisonResult :=
  if file1.file_type = .Binary ∨ file2.file_type = .Binary then
    .HashOnly (mkLinkedId file1.content_hash file2.content_hash)
      (pathDisplay file1.path) (pathDisplay file2.path)
      file1.size file2.size true
  else if file1.file_type.is_structured && file2.file_type.is_structured then
    .Structured
      { linked_id := mkLinkedId file1.content_hash file2.content_hash
        file1_path := pathDisplay file1.path
        file2_path := pathDisplay file2.path
        file1_row_count := file1.line_count
        file2_row_count := file2.line_count
        common_records := file1.line_count
        only_in_file1 := 0
        only_in_file2 := 0
        similarity_score := 1
        field_mismatches := []
        total_field_mismatches := 0
        columns_only_in_file1 := []
        columns_only_in_file2 := []
        common_columns := file1.columns.getD []
        identical := true }
  else
    .Text
      { linked_id := mkLinkedId file1.content_hash file2.content_hash
        file1_path := pathDisplay file1.path
        file2_path := pathDisplay file2.path
        file1_line_count := file1.line_count
        file2_line_count := file2.line_count
        common_lines := file1.line_count
        only_in_file1 := 0
        only_in_file2 := 0
        similarity_score := 1
        different_positions := ""
        detailed_diff := ""
        diff_truncated := false
        identical := true }

/-- The spec's reading of the composite key (claim C5): the values of
the named columns that exist in the header, joined by a pipe in config
order, an absent value contributing the empty string. -/
def specCompositeKey (headers key_columns record : List String) : String :=
  String.intercalate "|"
    ((key_columns.filter (fun k => headers.contains k)).map
      (fun k => (row_lookup (row_map headers record) k).getD ""))

/-- The change tags of the external `similar` diff engine. -/
inductive ChangeTag where
  | Equal
  | Delete
  | Insert
deriving DecidableEq, Repr

/-- One hunk the external diff engine yields for unified output: its
`@@`-header (without trailing newline) and its tagged changes. -/
structure Hunk where
  header : String
  changes : List (ChangeTag × String)
deriving DecidableEq, Repr

/-- compare_text.rs: `encode_ranges` — closed ranges of consecutive
positions, comma-joined; empty string for no positions. -/
def encode_ranges (positions : List Nat) : String :=
  match positions with
  | [] => ""
  | p :: ps =>
    let fini := fun (st : List String × Nat × Nat) =>
      st.1 ++ [if st.2.1 = st.2.2 then toString st.2.1
               else toString st.2.1 ++ "-" ++ toString st.2.2]
    let st := ps.foldl (fun (acc : List String × Nat × Nat) pos =>
      if pos = acc.2.2 + 1 then (acc.1, acc.2.1, pos)
      else (fini acc, pos, pos)) ([], p, p)
    String.intercalate "," (fini st)

/-- State of the first statistics/plain-diff loop of
`compare_text_files` (compare_text.rs:30-76). -/
structure TextScanState where
  common_lines : Nat
  only_in_file1 : Nat
  only_in_file2 : Nat
  different_positions : List Nat
  detailed_diff : String
  diff_bytes : Nat
  diff_truncated : Bool
deriving DecidableEq, Repr

/-- One step of that loop over an indexed change. String length stands
for Rust byte length (exact on ASCII change content). -/
def text_scan_step (max_diff_bytes : Nat) (st : TextScanState)
    (ic : Nat × (ChangeTag × String)) : TextScanState :=
  match ic.2.1 with
  | .Equal => { st with common_lines := st.common_lines + 1 }
  | .Delete =>
    let st2 := { st with only_in_file1 := st.only_in_file1 + 1
                         different_positions := st.different_positions ++ [ic.1] }
    if st2.diff_bytes < max_diff_bytes then
      { st2 with diff_bytes := st2.diff_bytes + ("-" ++ ic.2.2).length
                 detailed_diff := st2.detailed_diff ++ "-" ++ ic.2.2 ++
                   (if strEndsWith ("-" ++ ic.2.2) '\n' then "" else "\n") }
    else { st2 with diff_truncated := true }
  | .Insert =>
    let st2 := { st with only_in_file2 := st.only_in_file2 + 1
                         different_positions := st.different_positions ++ [ic.1] }
    if st2.diff_bytes < max_diff_bytes then
      { st2 with diff_bytes := st2.diff_bytes + ("+" ++ ic.2.2).length
                 detailed_diff := st2.detailed_diff ++ "+" ++ ic.2.2 ++
                   (if strEndsWith ("+" ++ ic.2.2) '\n' then "" else "\n") }
    else { st2 with diff_truncated := true }

/-- The whole statistics loop of `compare_text_files` over the diff
transcript (`iter_all_changes().enumerate()`). -/
def text_scan (transcript : List (ChangeTag × String)) (max_diff_bytes : Nat) :
    TextScanState :=
  transcript.enum.foldl (text_scan_step max_diff_bytes) ⟨0, 0, 0, [], "", 0, false⟩

/-- Stand-in for the external strsim crate's `jaro_winkler`; no claim
depends on the CharJaro branch, only on which branch is selected. -/
def jaro_winkler (s1 s2 : String) : ℚ := 0

/-- compare_text.rs, `generate_unified_diff` inner loop: emit the changes
of one hunk, checking the cap before each change. -/
def emitChanges (max_bytes : Nat) : String → List (ChangeTag × String) → String × Bool
  | out, [] => (out, false)
  | out, (tag, val) :: rest =>
    if max_bytes ≤ out.length then (out, true)
    else
      emitChanges max_bytes
        (out ++ (match tag with | .Delete => "-" | .Insert => "+" | .Equal => " ") ++
          val ++ (if strEndsWith val '\n' then "" else "\n")) rest

/-- compare_text.rs, `generate_unified_diff` outer loop: emit hunks,
checking the cap before each hunk header. -/
def emitHunks (max_bytes : Nat) : String → Bool → List Hunk → String × Bool
  | out, truncated, [] => (out, truncated)
  | out, truncated, h :: rest =>
    if max_bytes ≤ out.length then (out, true)
    else
      match emitChanges max_bytes (out ++ h.header ++ "\n") h.changes with
      | (out2, tr) => emitHunks max_bytes out2 (truncated || tr) rest

/-- compare_text.rs: `generate_unified_diff` — the `---`/`+++` headers,
the hunk emission loop, and the truncation marker. The diff computation
of the external `similar` crate is modelled by the hunks argument. -/
def generate_unified_diff (file1_name file2_name : String) (hunks : List Hunk)
    (max_bytes : Nat) : String × Bool :=
  if (emitHunks max_bytes
      ("--- " ++ file1_name ++ "\n" ++ "+++ " ++ file2_name ++ "\n")
      false hunks).2 then
    ((emitHunks max_bytes
        ("--- " ++ file1_name ++ "\n" ++ "+++ " ++ file2_name ++ "\n")
        false hunks).1 ++ "\n... [diff truncated] ...\n", true)
  else
    ((emitHunks max_bytes
        ("--- " ++ file1_name ++ "\n" ++ "+++ " ++ file2_name ++ "\n")
        false hunks).1, false)

/-- compare_text.rs: `compare_text_files` — the file reads
(`read_normalized_lines`) and the diff computation of the external
`similar` crate are modelled by the lines, transcript and hunks
arguments. -/
def compare_text_files (file1 file2 : FileEntry) (config : CompareConfig)
    (lines1 lines2 : List String) (transcript : List (ChangeTag × String))
    (hunks : List Hunk) : TextComparisonResult :=
  let st := text_scan transcript config.max_diff_bytes
  let unified := generate_unified_diff (pathDisplay file1.path)
    (pathDisplay file2.path) hunks config.max_diff_bytes
  { linked_id := mkLinkedId file1.content_hash file2.content_hash
    file1_path := pathDisplay file1.path
    file2_path := pathDisplay file2.path
    file1_line_count := lines1.length
    file2_line_count := lines2.length
    common_lines := st.common_lines
    only_in_file1 := st.only_in_file1
    only_in_file2 := st.only_in_file2
    similarity_score :=
      match config.similarity_algorithm with
      | .Diff =>
        if 0 < st.common_lines + st.only_in_file1 + st.only_in_file2 then
          (st.common_lines : ℚ) /
            ((st.common_lines + st.only_in_file1 + st.only_in_file2 : Nat) : ℚ)
        else 1
      | .CharJaro =>
        jaro_winkler (String.intercalate "\n" lines1)
          (String.intercalate "\n" lines2)
    different_positions := encode_ranges st.different_positions
    detailed_diff := if unified.1 = "" then st.detailed_diff else unified.1
    diff_truncated := st.diff_truncated || unified.2
    identical := st.only_in_file1 = 0 && st.only_in_file2 = 0 }

/-- main.rs: `auto_detect_mode`. -/
def auto_detect_mode (file1 file2 : FileEntry) : CompareMode :=
  if file1.file_type.is_structured && file2.file_type.is_structured then
    .Structured
  else if file1.file_type = .Binary ∨ file2.file_type = .Binary then
    .Text
  else .Text

/-- main.rs: `compare_pair` — exact-hash shortcut, mode resolution, and
error wrapping. The two comparator invocations (which read files) are
modelled by the `Except` outcomes passed in. -/
def compare_pair (pair : CandidatePair) (config : CompareConfig)
    (textRun : Except String TextComparisonResult)
    (structRun : Except String StructuredComparisonResult) : ComparisonResult :=
  if pair.exact_hash_match then create_identical_result pair.file1 pair.file2
  else
    match (match config.mode with
           | .Auto => auto_detect_mode pair.file1 pair.file2
           | .Text => CompareMode.Text
           | .Structured => CompareMode.Structured) with
    | .Text =>
      match textRun with
      | .ok r => .Text r
      | .error e =>
        .Error (pathDisplay pair.file1.path) (pathDisplay pair.file2.path) e
    | .Structured =>
      match structRun with
      | .ok r => .Structured r
      | .error e =>
        .Error (pathDisplay pair.file1.path) (pathDisplay pair.file2.path) e
    | .Auto =>
      match textRun with
      | .ok r => .Text r
      | .error e =>
        .Error (pathDisplay pair.file1.path) (pathDisplay pair.file2.path) e

/-- main.rs, run_compare stage 4: one result per candidate pair
(`candidates.par_iter().map(compare_pair)`): each pair's comparator
outcomes are its own. -/
def compare_batch (pairs : List CandidatePair) (config : CompareConfig)
    (textRun : CandidatePair → Except String TextComparisonResult)
    (structRun : CandidatePair → Except String StructuredComparisonResult) :
    List ComparisonResult :=
  pairs.map (fun p => compare_pair p config (textRun p) (structRun p))

/-- match_files.rs: `generate_candidates` — strategy dispatch. -/
def generate_candidates (files1 files2 : List FileEntry)
    (config : CompareConfig) : List CandidatePair :=
  match config.pairing with
  | .SamePath => match_by_path files1 files2
  | .SameName => match_by_name files1 files2
  | .AllVsAll => all_vs_all_match files1 files2 config.top_k config.max_pairs

/-- A text entry with hash `aaaa` whose comparator run will fail. -/
def errF1 : FileEntry :=
  { path := ["e1.txt"], size := 4, file_type := .Text, extension := "txt"
    content_hash := "aaaa", simhash := none, schema_signature := none
    line_count := 1, columns := none }

/-- A text entry with hash `bbbb`. -/
def errF2 : FileEntry :=
  { path := ["e2.txt"], size := 4, file_type := .Text, extension := "txt"
    content_hash := "bbbb", simhash := none, schema_signature := none
    line_count := 1, columns := none }

/-- A non-exact candidate pair of those two entries. -/
def errPair : CandidatePair :=
  { file1 := errF1, file2 := errF2
    estimated_similarity := 0, exact_hash_match := false }

/-- Text entry at path `a` for the diff-truncation example. -/
def diffE1 : FileEntry :=
  { path := ["a"], size := 2, file_type := .Text, extension := ""
    content_hash := "h1", simhash := none, schema_signature := none
    line_count := 1, columns := none }

/-- Text entry at path `b` for the diff-truncation example. -/
def diffE2 : FileEntry :=
  { path := ["b"], size := 2, file_type := .Text, extension := ""
    content_hash := "h2", simhash := none, schema_signature := none
    line_count := 1, columns := none }

/-- A CompareConfig whose max_diff_bytes is exactly 30 — the length the
example unified diff body reaches on its final change. -/
def cfgSmallDiff : CompareConfig :=
  { mode := .Auto, pairing := .AllVsAll, top_k := 3, max_pairs := none
    key_columns := [], numeric_tolerance := 0, normalization := normOff
    similarity_algorithm := .Diff, max_diff_bytes := 30 }

/-- Structural reformulation of `row_map` (positional zip of header names
with record values), used to reason about it. -/
def rowMapAux : List String → List String → List (String × String)
  | [], _ => []
  | _ :: _, [] => []
  | h :: hs, r :: rs => (h, r) :: rowMapAux hs rs

/-- Bytes of the CSV content `id,name` / `1,alice` / `2,bob` (header plus
two data rows, each line LF-terminated). -/
def csvContent3 : List Nat :=
  [105, 100, 44, 110, 97, 109, 101, 10,
   49, 44, 97, 108, 105, 99, 101, 10,
   50, 44, 98, 111, 98, 10]

/-- The FileEntry the indexer produces for that CSV content. -/
def csvEntryA : FileEntry := index_single_file ["a.csv"] 22 csvContent3 "csv"

/-- A CompareConfig with no key columns (first column keys the rows) and
zero numeric tolerance. -/
def cfgKeyless : CompareConfig :=
  { mode := .Auto, pairing := .AllVsAll, top_k := 3, max_pairs := none
    key_columns := [], numeric_tolerance := 0, normalization := normOff
    similarity_algorithm := .Diff, max_diff_bytes := 1048576 }

/-- A file `a.txt` as indexed from root directory `dir1`: the stored path
keeps the root component (index.rs stores the walked path verbatim;
`relative_path` exists but is never called). -/
def dirEntry1 : FileEntry :=
  { path := ["dir1", "a.txt"], size := 6, file_type := .Text, extension := "txt"
    content_hash := "hh", simhash := some 3, schema_signature := none
    line_count := 1, columns := none }

/-- The byte-identical `a.txt` as indexed from root directory `dir2`. -/
def dirEntry2 : FileEntry :=
  { path := ["dir2", "a.txt"], size := 6, file_type := .Text, extension := "txt"
    content_hash := "hh", simhash := some 3, schema_signature := none
    line_count := 1, columns := none }

/-- A side-1 entry `x.txt` for the SameName strategy (no fingerprints, so
every candidate scores the fallback estimate 0). -/
def nameF1 : FileEntry :=
  { path := ["x.txt"], size := 0, file_type := .Text, extension := "txt"
    content_hash := "", simhash := none, schema_signature := none
    line_count := 0, columns := none }

/-- First side-2 entry with basename `x.txt` (under `d1`). -/
def nameG1 : FileEntry :=
  { path := ["d1", "x.txt"], size := 0, file_type := .Text, extension := "txt"
    content_hash := "", simhash := none, schema_signature := none
    line_count := 0, columns := none }

/-- Second side-2 entry with basename `x.txt` (under `d2`). -/
def nameG2 : FileEntry :=
  { path := ["d2", "x.txt"], size := 0, file_type := .Text, extension := "txt"
    content_hash := "", simhash := none, schema_signature := none
    line_count := 0, columns := none }

section MatcherTheorems

theorem mem_stableInsert (lt : α → α → Bool) (a x : α) (l : List α) :
    x ∈ stableInsert lt a l ↔ x = a ∨ x ∈ l := by
  induction l with
  | nil => simp [stableInsert]
  | cons b bs ih =>
    simp only [stableInsert]
    split
    · simp [List.mem_cons]
    · simp only [List.mem_cons, ih]
      tauto

theorem mem_stableSortBy (lt : α → α → Bool) (x : α) (l : List α) :
    x ∈ stableSortBy lt l ↔ x ∈ l := by
  induction l with
  | nil => simp [stableSortBy]
  | cons a as ih =>
    simp [stableSortBy, mem_stableInsert, ih]

theorem exact_pass_step_pairs (files2 : List FileEntry) (st : ExactPassState)
    (f1 : FileEntry) (P : CandidatePair → Prop)
    (hP : ∀ p ∈ st.pairs, P p)
    (hnew : ∀ f2, P { file1 := f1, file2 := f2, estimated_similarity := 1,
                      exact_hash_match := true }) :
    ∀ p ∈ (exact_pass_step files2 st f1).pairs, P p := by
  intro p hp
  unfold exact_pass_step at hp
  split at hp
  · split at hp
    · rcases List.mem_append.mp hp with h | h
      · exact hP p h
      · rcases List.mem_singleton.mp h with rfl
        exact hnew _
    · exact hP p hp
  · exact hP p hp

theorem exact_pass_pairs (files1 files2 : List FileEntry) (st : ExactPassState)
    (P : CandidatePair → Prop)
    (hP : ∀ p ∈ st.pairs, P p)
    (hnew : ∀ f1 f2, P { file1 := f1, file2 := f2, estimated_similarity := 1,
                         exact_hash_match := true }) :
    ∀ p ∈ (files1.foldl (exact_pass_step files2) st).pairs, P p := by
  induction files1 generalizing st with
  | nil => exact hP
  | cons f fs ih =>
    exact ih _ (exact_pass_step_pairs files2 st f P hP (hnew f))

theorem sim_pair_sound (files1 files2 : List FileEntry) (top_k : Nat)
    (max_pairs : Option Nat) (p : CandidatePair)
    (hp : p ∈ all_vs_all_match files1 files2 top_k max_pairs) :
    (p.exact_hash_match = true ∧ p.estimated_similarity = 1) ∨
    (p.exact_hash_match = false ∧ passes_blocking_rules p.file1 p.file2 = true) := by
  unfold all_vs_all_match at hp
  have hp2 : p ∈ stableSortBy
      (fun a b => a.estimated_similarity > b.estimated_similarity)
      ((exact_pass files1 files2).pairs ++
        ((files1.filter (fun f =>
            !((exact_pass files1 files2).matched1.contains f.path))).flatMap
          (fun f1 =>
            ((stableSortBy (fun a b => a.2 > b.2)
              (sim_candidates
                (files2.filter (fun f =>
                  !((exact_pass files1 files2).matched2.contains f.path))) f1)).take
                top_k).map
              (fun c => { file1 := f1, file2 := c.1,
                          estimated_similarity := c.2,
                          exact_hash_match := false })))) := by
    cases max_pairs with
    | none => exact hp
    | some m => exact List.take_subset m _ hp
  rw [mem_stableSortBy] at hp2
  rcases List.mem_append.mp hp2 with h | h
  · left
    exact exact_pass_pairs files1 files2 ⟨[], [], []⟩
      (fun q => q.exact_hash_match = true ∧ q.estimated_similarity = 1)
      (by intro q hq; cases hq) (fun f1 f2 => ⟨rfl, rfl⟩) p h
  · right
    rcases List.mem_flatMap.mp h with ⟨f1, _, hmem⟩
    rcases List.mem_map.mp hmem with ⟨c, hc, rfl⟩
    have hc2 : c ∈ sim_candidates _ f1 :=
      (mem_stableSortBy _ _ _).mp (List.take_subset top_k _ hc)
    rcases List.mem_map.mp hc2 with ⟨f2, hf2, rfl⟩
    exact ⟨rfl, (List.mem_filter.mp hf2).2⟩

theorem foldl_last_argmax (κ : α → ℚ) (cs : List α) (c : α) :
    ∃ pre post,
      c :: cs = pre ++
        (List.foldl (fun acc y => if κ acc > κ y then acc else y) c cs) :: post ∧
      (∀ y ∈ c :: cs,
        κ y ≤ κ (List.foldl (fun acc y => if κ acc > κ y then acc else y) c cs)) ∧
      (∀ y ∈ post,
        κ y < κ (List.foldl (fun acc y => if κ acc > κ y then acc else y) c cs)) := by
  induction cs generalizing c with
  | nil =>
    refine ⟨[], [], by simp, ?_, by simp⟩
    intro y hy
    rw [List.mem_singleton.mp hy]
    simp
  | cons y cs ih =>
    simp only [List.foldl_cons]
    by_cases h : κ c > κ y
    · rw [if_pos h]
      rcases ih c with ⟨pre, post, heq, hbound, hpost⟩
      cases pre with
      | nil =>
        simp only [List.nil_append] at heq
        injection heq with h1 h2
        refine ⟨[], y :: cs, ?_, ?_, ?_⟩
        · simp only [List.nil_append, ← h1]
        · intro z hz
          rcases List.mem_cons.mp hz with rfl | hz2
          · exact le_of_eq (congrArg κ h1)
          · rcases List.mem_cons.mp hz2 with rfl | hz3
            · rw [← h1]; exact le_of_lt h
            · exact hbound z (List.mem_cons_of_mem c hz3)
        · intro z hz
          rcases List.mem_cons.mp hz with rfl | hz2
          · rw [← h1]; exact h
          · exact hpost z (h2 ▸ hz2)
      | cons q pre2 =>
        rw [List.cons_append] at heq
        injection heq with h1 h2
        refine ⟨c :: y :: pre2, post, ?_, ?_, ?_⟩
        · rw [List.cons_append, List.cons_append, ← h2]
        · intro z hz
          rcases List.mem_cons.mp hz with rfl | hz2
          · exact hbound _ (List.mem_cons_self _ _)
          · rcases List.mem_cons.mp hz2 with rfl | hz3
            · exact le_trans (le_of_lt h) (hbound c (List.mem_cons_self c cs))
            · exact hbound z (List.mem_cons_of_mem c hz3)
        · exact hpost
    · rw [if_neg h]
      rcases ih y with ⟨pre, post, heq, hbound, hpost⟩
      refine ⟨c :: pre, post, ?_, ?_, ?_⟩
      · rw [List.cons_append, ← heq]
      · intro z hz
        rcases List.mem_cons.mp hz with rfl | hz2
        · exact le_trans (le_of_not_lt h) (hbound y (List.mem_cons_self y cs))
        · exact hbound z hz2
      · exact hpost

theorem max_by_sim_spec (f1 : FileEntry) (cands : List FileEntry)
    (f2 : FileEntry) (h : max_by_sim f1 cands = some f2) :
    ∃ pre post, cands = pre ++ f2 :: post ∧
      (∀ y ∈ cands, estimate_similarity f1 y ≤ estimate_similarity f1 f2) ∧
      (∀ y ∈ post, estimate_similarity f1 y < estimate_similarity f1 f2) := by
  cases cands with
  | nil => cases h
  | cons c cs =>
    simp only [max_by_sim, Option.some.injEq] at h
    subst h
    exact foldl_last_argmax (estimate_similarity f1) cs c

end MatcherTheorems

section IndexerTheorems

theorem probeLoop_no_null (lines : List (List Nat)) :
    ∀ tot lc fl, tot < 8192 →
    (∀ l ∈ probedLines lines tot, utf8Valid l = true ∧ l.contains 0 = false) →
    (probeLoop lines tot lc fl).has_null = false := by
  induction lines with
  | nil => intro tot lc fl _ _; rfl
  | cons l ls ih =>
    intro tot lc fl htot h
    have hprobed : probedLines (l :: ls) tot =
        l :: probedLines ls (tot + l.length) := by
      simp only [probedLines]; rw [if_pos htot]
    obtain ⟨hv, hz⟩ := h l (by rw [hprobed]; exact List.mem_cons_self _ _)
    unfold probeLoop
    rw [hv, hz]
    simp only [Bool.not_true, Bool.false_eq_true, if_false]
    by_cases hlim : 8192 ≤ tot + l.length
    · rw [if_pos hlim]
    · rw [if_neg hlim]
      exact ih (tot + l.length) _ _ (by omega)
        (fun l2 hl2 => h l2 (by rw [hprobed]; exact List.mem_cons_of_mem l hl2))

theorem classify_not_binary (r : ProbeResult) (ext : String)
    (h : r.has_null = false) : (classify r ext).1 ≠ FileType.Binary := by
  unfold classify
  rw [h]
  simp only [Bool.false_eq_true, if_false]
  split
  · split <;> simp
  · split
    · split
      · simp
      · split <;> simp
    · simp

theorem classify_shape (r : ProbeResult) (ext : String) :
    (classify r ext).1 = FileType.Binary ∨ (classify r ext).1 = FileType.Text ∨
    (classify r ext).2.2.isSome = true := by
  unfold classify
  split
  · exact Or.inl rfl
  · dsimp only
    split
    · right; right
      split <;> rfl
    · split
      · split
        · right; right; rfl
        · split
          · right; right; rfl
          · right; left; rfl
      · right; left; rfl

theorem classify_cols_isSome (r : ProbeResult) (ext : String)
    (h : (classify r ext).1 = FileType.Csv ∨ (classify r ext).1 = FileType.Tsv) :
    (classify r ext).2.2.isSome = true := by
  rcases classify_shape r ext with hb | ht | hs
  · simp [hb] at h
  · simp [ht] at h
  · exact hs

end IndexerTheorems

section FingerprintTheorems

theorem natToHex64_length (n : Nat) : (natToHex64 n).length = 64 := by
  unfold natToHex64
  simp [String.length]

theorem blake3Hex_ne_empty (content : List Nat) : blake3Hex content ≠ "" := by
  intro h
  have h2 : (blake3Hex content).length = 64 := by
    unfold blake3Hex; exact natToHex64_length _
  rw [h] at h2
  simp [String.length] at h2

theorem fingerprint_entry_invariants (entry : FileEntry) (bytes : List Nat)
    (norm : NormalizationOptions)
    (hsim : entry.simhash = none)
    (hcols : entry.file_type = .Csv ∨ entry.file_type = .Tsv →
      entry.columns.isSome = true) :
    (compute_fingerprint_for_entry entry (some bytes) norm).content_hash ≠ "" ∧
    (compute_fingerprint_for_entry entry (some bytes) norm).file_type =
      entry.file_type ∧
    ((entry.file_type = .Csv ∨ entry.file_type = .Tsv) →
      (compute_fingerprint_for_entry entry
        (some bytes) norm).schema_signature.isSome = true ∧
      (compute_fingerprint_for_entry entry
        (some bytes) norm).columns.isSome = true) ∧
    (entry.file_type = .Binary →
      (compute_fingerprint_for_entry entry (some bytes) norm).simhash = none) := by
  obtain ⟨p, sz, ft, ext, ch, sh, ss, lc, cols⟩ := entry
  cases ft with
  | Text =>
    refine ⟨blake3Hex_ne_empty bytes, rfl, ?_, ?_⟩
    · intro h; rcases h with h | h <;> cases h
    · intro h; cases h
  | Csv =>
    have hc : cols.isSome = true := hcols (Or.inl rfl)
    cases cols with
    | none => cases hc
    | some cs =>
      refine ⟨blake3Hex_ne_empty bytes, rfl, ?_, ?_⟩
      · intro _; exact ⟨rfl, rfl⟩
      · intro h; cases h
  | Tsv =>
    have hc : cols.isSome = true := hcols (Or.inr rfl)
    cases cols with
    | none => cases hc
    | some cs =>
      refine ⟨blake3Hex_ne_empty bytes, rfl, ?_, ?_⟩
      · intro _; exact ⟨rfl, rfl⟩
      · intro h; cases h
  | Binary =>
    refine ⟨blake3Hex_ne_empty bytes, rfl, ?_, ?_⟩
    · intro h; rcases h with h | h <;> cases h
    · intro _; exact hsim
  | Unknown =>
    refine ⟨blake3Hex_ne_empty bytes, rfl, ?_, ?_⟩
    · intro h; rcases h with h | h <;> cases h
    · intro h; cases h

theorem index_single_file_fields (path : Path) (size : Nat)
    (content : List Nat) (ext : String) :
    (index_single_file path size content ext).file_type =
      (detect_file_type content ext).1 ∧
    (index_single_file path size content ext).simhash = none ∧
    (index_single_file path size content ext).columns =
      (detect_file_type content ext).2.2.map (fun cs => cs.map bytesToString) := by
  unfold index_single_file
  rcases detect_file_type content ext with ⟨ft, lc, cols⟩
  exact ⟨rfl, rfl, rfl⟩

end FingerprintTheorems

section StructuredTheorems

theorem rowMap_enumFrom (headers : List String) :
    ∀ (record : List String) (n : Nat),
    (List.enumFrom n headers).filterMap
      (fun ih => (record.get? ih.1).map (fun v => (ih.2, v))) =
    rowMapAux headers (record.drop n) := by
  induction headers with
  | nil => intro record n; cases record <;> simp [rowMapAux]
  | cons h hs ih =>
    intro record n
    rw [List.enumFrom_cons, List.filterMap_cons]
    cases hget : record.get? n with
    | none =>
      have hlen : record.length ≤ n := List.get?_eq_none.mp hget
      have hdrop : record.drop n = [] := List.drop_eq_nil_of_le hlen
      have hdrop2 : record.drop (n + 1) = [] :=
        List.drop_eq_nil_of_le (le_trans hlen (Nat.le_succ n))
      simp only [Option.map_none']
      rw [ih record (n + 1), hdrop, hdrop2]
      cases hs <;> rfl
    | some v =>
      obtain ⟨hlt, hgetv⟩ := List.get?_eq_some.mp hget
      simp only [Option.map_some']
      rw [ih record (n + 1)]
      have hdrop : record.drop n = v :: record.drop (n + 1) := by
        rw [List.drop_eq_getElem_cons hlt]
        congr 1
      rw [hdrop]
      rfl

theorem row_map_eq_rowMapAux (headers record : List String) :
    row_map headers record = rowMapAux headers record := by
  have := rowMap_enumFrom headers record 0
  rw [List.drop_zero] at this
  exact this

theorem rowMapAux_keys (headers : List String) :
    ∀ (record : List String), ∀ e ∈ rowMapAux headers record, e.1 ∈ headers := by
  induction headers with
  | nil => intro record e he; cases he
  | cons h hs ih =>
    intro record e he
    cases record with
    | nil => cases he
    | cons r rs =>
      rcases List.mem_cons.mp he with rfl | he2
      · exact List.mem_cons_self _ _
      · exact List.mem_cons_of_mem _ (ih rs e he2)

theorem row_lookup_rowMapAux (headers : List String) :
    ∀ (record : List String) (k : String), headers.Nodup →
    row_lookup (rowMapAux headers record) k =
      (headers.findIdx? (fun h => h = k)).bind (fun i => record.get? i) := by
  induction headers with
  | nil => intro record k _; simp [rowMapAux, row_lookup]
  | cons h hs ih =>
    intro record k hnd
    obtain ⟨hnotin, hnd2⟩ := List.nodup_cons.mp hnd
    cases record with
    | nil =>
      rw [show rowMapAux (h :: hs) [] = [] from rfl, List.findIdx?_cons]
      by_cases hk : h = k
      · simp [row_lookup, hk]
      · simp [row_lookup, hk, List.findIdx?_succ]
    | cons r rs =>
      rw [show rowMapAux (h :: hs) (r :: rs) = (h, r) :: rowMapAux hs rs from rfl,
        List.findIdx?_cons]
      by_cases hk : h = k
      · rw [if_pos (by simpa using hk)]
        have htail : (rowMapAux hs rs).filter (fun e => decide (e.1 = k)) = [] := by
          rw [List.filter_eq_nil_iff]
          intro e he hek
          apply hnotin
          have h1 : e.1 ∈ hs := rowMapAux_keys hs rs e he
          have h2 : e.1 = k := by simpa using hek
          rwa [h2, ← hk] at h1
        unfold row_lookup
        rw [List.filter_cons_of_pos (by simpa using hk), htail]
        simp
      · rw [if_neg (by simpa using hk)]
        have hlhs : row_lookup ((h, r) :: rowMapAux hs rs) k =
            row_lookup (rowMapAux hs rs) k := by
          unfold row_lookup
          rw [List.filter_cons_of_neg (by simpa using hk)]
        rw [hlhs, ih rs k hnd2, List.findIdx?_succ]
        cases hidx : List.findIdx? (fun h2 => h2 = k) hs <;> simp [hidx]

end StructuredTheorems

section DiffTheorems

theorem emitChanges_true_len (max_bytes : Nat) (cs : List (ChangeTag × String)) :
    ∀ out, (emitChanges max_bytes out cs).2 = true →
      max_bytes ≤ (emitChanges max_bytes out cs).1.length := by
  induction cs with
  | nil => intro out h; cases h
  | cons c rest ih =>
    intro out h
    rcases c with ⟨tag, val⟩
    by_cases hc : max_bytes ≤ out.length
    · simp only [emitChanges] at h ⊢
      rw [if_pos hc] at h ⊢
      simpa using hc
    · simp only [emitChanges] at h ⊢
      rw [if_neg hc] at h ⊢
      exact ih _ h

theorem emitHunks_true_len (max_bytes : Nat) (hunks : List Hunk) :
    ∀ out t, (t = true → max_bytes ≤ out.length) →
      (emitHunks max_bytes out t hunks).2 = true →
      max_bytes ≤ (emitHunks max_bytes out t hunks).1.length := by
  induction hunks with
  | nil =>
    intro out t hpre h
    simp only [emitHunks] at h ⊢
    exact hpre h
  | cons hk rest ih =>
    intro out t hpre h
    by_cases hc : max_bytes ≤ out.length
    · simp only [emitHunks] at h ⊢
      rw [if_pos hc] at h ⊢
      simpa using hc
    · simp only [emitHunks] at h ⊢
      rw [if_neg hc] at h ⊢
      rcases hec : emitChanges max_bytes (out ++ hk.header ++ "\n") hk.changes
        with ⟨out2, tr⟩
      rw [hec] at h
      apply ih _ _ ?_ h
      intro htr
      cases tr with
      | false =>
        rw [Bool.or_false] at htr
        exact absurd (hpre htr) hc
      | true =>
        have h2 := emitChanges_true_len max_bytes hk.changes
          (out ++ hk.header ++ "\n") (by rw [hec])
        rw [hec] at h2
        exact h2

end DiffTheorems

/-- Claim C1: every CandidatePair produced by the AllVsAll strategy —
including pairs emitted by the exact-hash pass — satisfies the blocking
rules. REFUTED: the exact-hash pass never consults
`passes_blocking_rules`; two byte-identical files indexed as `a.csv` and
`a.py` are paired although their extensions are neither equal nor in a
common compatibility group. -/
theorem C1_all_vs_all_blocking_counterexample :
    ¬ (∀ p ∈ all_vs_all_match [csvTwin1] [csvTwin2] 3 none,
        passes_blocking_rules p.file1 p.file2 = true) := by
  decide

/-- Claim C1 (amended): pairs emitted by the similarity pass of AllVsAll
satisfy the blocking rules; pairs emitted by the exact-hash pass instead
carry `exact_hash_match = true` and estimated similarity 1.0 and are not
subject to the blocking rules. -/
theorem C1_all_vs_all_blocking_amended (files1 files2 : List FileEntry)
    (top_k : Nat) (max_pairs : Option Nat) (p : CandidatePair)
    (hp : p ∈ all_vs_all_match files1 files2 top_k max_pairs)
    (hsim : p.exact_hash_match = false) :
    passes_blocking_rules p.file1 p.file2 = true := by
  rcases sim_pair_sound files1 files2 top_k max_pairs p hp with h | h
  · rw [h.1] at hsim; cases hsim
  · exact h.2

/-- Claim C1 witness: the amended theorem applied to the concrete
similarity-pass pair of two same-extension text files. -/
theorem C1_all_vs_all_blocking_witness :
    passes_blocking_rules txtSimPair.file1 txtSimPair.file2 = true :=
  C1_all_vs_all_blocking_amended [txtEntry1] [txtEntry2] 3 none txtSimPair
    (by decide) (by decide)

/-- Claim C2: SamePath on two directory trees holding a byte-identical
file at the same relative path emits exactly one pair with
`exact_hash_match = true`. CODE BUG: `match_by_path` compares the paths
as indexed, which include the differing root directories (`dir1/a.txt`
vs `dir2/a.txt`), so no pair at all is emitted — although the entries
share content hash and relative path, and although
`PairingStrategy::SamePath` documents itself as matching by relative
path (the `relative_path` helper in index.rs is never called). -/
theorem C2_same_path_code_bug :
    dirEntry1.content_hash = dirEntry2.content_hash ∧
    dirEntry1.content_hash ≠ "" ∧
    dirEntry1.path.tail = dirEntry2.path.tail ∧
    match_by_path [dirEntry1] [dirEntry2] = [] := by
  decide

/-- Claim C3: with several same-basename candidates, SameName emits the
candidate of highest estimated similarity, ties broken by FIRST
encountered. REFUTED on the tie-break: Rust `Iterator::max_by` keeps the
LAST of equally-maximal elements, so with two tied candidates the pair
uses the second one. -/
theorem C3_same_name_tie_counterexample :
    estimate_similarity nameF1 nameG1 = estimate_similarity nameF1 nameG2 ∧
    nameG1 ≠ nameG2 ∧
    match_by_name [nameF1] [nameG1, nameG2] =
      [{ file1 := nameF1, file2 := nameG2,
         estimated_similarity := 0, exact_hash_match := false }] := by
  decide

/-- Claim C3 (amended): for each side-1 entry, among the same-basename
side-2 candidates the emitted pair uses a candidate with the highest
estimated similarity, and when several candidates tie for the highest
similarity the one LAST encountered (latest in side-2 order) is chosen:
the chosen candidate bounds every candidate from above and every
candidate after it is strictly below it. -/
theorem C3_same_name_best_amended (files1 files2 : List FileEntry)
    (p : CandidatePair) (hp : p ∈ match_by_name files1 files2) :
    ∃ name pre post,
      fileName p.file1.path = some name ∧
      same_name_candidates files2 name = pre ++ p.file2 :: post ∧
      (∀ y ∈ same_name_candidates files2 name,
        estimate_similarity p.file1 y ≤ estimate_similarity p.file1 p.file2) ∧
      (∀ y ∈ post,
        estimate_similarity p.file1 y < estimate_similarity p.file1 p.file2) := by
  unfold match_by_name at hp
  rcases List.mem_filterMap.mp hp with ⟨f1, _, hbind⟩
  rcases Option.bind_eq_some.mp hbind with ⟨name, hname, hmap⟩
  rcases Option.map_eq_some'.mp hmap with ⟨f2, hmax, rfl⟩
  rcases max_by_sim_spec f1 (same_name_candidates files2 name) f2 hmax with
    ⟨pre, post, heq, hbound, hpost⟩
  exact ⟨name, pre, post, hname, heq, hbound, hpost⟩

/-- Claim C3 witness: the amended theorem applied to the concrete tied
pair, whose chosen candidate is the last one. -/
theorem C3_same_name_best_witness :
    ∃ name pre post,
      fileName nameF1.path = some name ∧
      same_name_candidates [nameG1, nameG2] name = pre ++ nameG2 :: post ∧
      (∀ y ∈ same_name_candidates [nameG1, nameG2] name,
        estimate_similarity nameF1 y ≤ estimate_similarity nameF1 nameG2) ∧
      (∀ y ∈ post,
        estimate_similarity nameF1 y < estimate_similarity nameF1 nameG2) :=
  C3_same_name_best_amended [nameF1] [nameG1, nameG2]
    { file1 := nameF1, file2 := nameG2,
      estimated_similarity := 0, exact_hash_match := false }
    (by decide)

/-- Claim C4: after the fingerprinting stage has run over a FileEntry,
its content_hash is non-empty, Csv/Tsv entries have schema_signature and
columns set, Binary entries have no simhash. REFUTED as stated: when the
file read fails, `compute_fingerprints` only logs a warning and the
entry is left unchanged — a Csv entry keeps its empty hash and absent
schema signature. -/
theorem C4_fingerprint_invariants_counterexample :
    (compute_fingerprint_for_entry
      (index_single_file ["t.csv"] 8 [97, 44, 98, 10, 49, 44, 50, 10] "csv")
      none normOff).file_type = FileType.Csv ∧
    (compute_fingerprint_for_entry
      (index_single_file ["t.csv"] 8 [97, 44, 98, 10, 49, 44, 50, 10] "csv")
      none normOff).content_hash = "" ∧
    (compute_fingerprint_for_entry
      (index_single_file ["t.csv"] 8 [97, 44, 98, 10, 49, 44, 50, 10] "csv")
      none normOff).schema_signature = none := by
  decide

/-- Claim C4 (amended): for every FileEntry produced by the indexer over
which fingerprinting ran successfully (the content was readable):
content_hash is non-empty; Csv/Tsv implies schema_signature and columns
are Some; Binary implies simhash is None. -/
theorem C4_fingerprint_invariants_amended (path : Path) (size : Nat)
    (content bytes : List Nat) (ext : String) (norm : NormalizationOptions) :
    (compute_fingerprint_for_entry (index_single_file path size content ext)
      (some bytes) norm).content_hash ≠ "" ∧
    (((compute_fingerprint_for_entry (index_single_file path size content ext)
        (some bytes) norm).file_type = FileType.Csv ∨
      (compute_fingerprint_for_entry (index_single_file path size content ext)
        (some bytes) norm).file_type = FileType.Tsv) →
      (compute_fingerprint_for_entry (index_single_file path size content ext)
        (some bytes) norm).schema_signature.isSome = true ∧
      (compute_fingerprint_for_entry (index_single_file path size content ext)
        (some bytes) norm).columns.isSome = true) ∧
    ((compute_fingerprint_for_entry (index_single_file path size content ext)
        (some bytes) norm).file_type = FileType.Binary →
      (compute_fingerprint_for_entry (index_single_file path size content ext)
        (some bytes) norm).simhash = none) := by
  obtain ⟨hft, hsim, hcols⟩ := index_single_file_fields path size content ext
  have hcols2 : (index_single_file path size content ext).file_type = .Csv ∨
      (index_single_file path size content ext).file_type = .Tsv →
      (index_single_file path size content ext).columns.isSome = true := by
    intro h
    rw [hft] at h
    have hs : (detect_file_type content ext).2.2.isSome = true :=
      classify_cols_isSome _ ext h
    rw [hcols]
    cases hopt : (detect_file_type content ext).2.2 with
    | none => rw [hopt] at hs; cases hs
    | some cs => rfl
  obtain ⟨h1, hpres, h3, h4⟩ :=
    fingerprint_entry_invariants (index_single_file path size content ext)
      bytes norm hsim hcols2
  refine ⟨h1, ?_, ?_⟩
  · intro h
    rw [hpres] at h
    exact h3 h
  · intro h
    rw [hpres] at h
    exact h4 h

/-- Claim C4 witness: the amended theorem instantiated at a concrete,
successfully fingerprinted CSV file. -/
theorem C4_fingerprint_invariants_witness :
    (compute_fingerprint_for_entry
      (index_single_file ["t.csv"] 8 [97, 44, 98, 10, 49, 44, 50, 10] "csv")
      (some [97, 44, 98, 10, 49, 44, 50, 10]) normOff).content_hash ≠ "" ∧
    (((compute_fingerprint_for_entry
        (index_single_file ["t.csv"] 8 [97, 44, 98, 10, 49, 44, 50, 10] "csv")
        (some [97, 44, 98, 10, 49, 44, 50, 10]) normOff).file_type =
          FileType.Csv ∨
      (compute_fingerprint_for_entry
        (index_single_file ["t.csv"] 8 [97, 44, 98, 10, 49, 44, 50, 10] "csv")
        (some [97, 44, 98, 10, 49, 44, 50, 10]) normOff).file_type =
          FileType.Tsv) →
      (compute_fingerprint_for_entry
        (index_single_file ["t.csv"] 8 [97, 44, 98, 10, 49, 44, 50, 10] "csv")
        (some [97, 44, 98, 10, 49, 44, 50, 10]) normOff).schema_signature.isSome
          = true ∧
      (compute_fingerprint_for_entry
        (index_single_file ["t.csv"] 8 [97, 44, 98, 10, 49, 44, 50, 10] "csv")
        (some [97, 44, 98, 10, 49, 44, 50, 10]) normOff).columns.isSome = true) ∧
    ((compute_fingerprint_for_entry
        (index_single_file ["t.csv"] 8 [97, 44, 98, 10, 49, 44, 50, 10] "csv")
        (some [97, 44, 98, 10, 49, 44, 50, 10]) normOff).file_type =
          FileType.Binary →
      (compute_fingerprint_for_entry
        (index_single_file ["t.csv"] 8 [97, 44, 98, 10, 49, 44, 50, 10] "csv")
        (some [97, 44, 98, 10, 49, 44, 50, 10]) normOff).simhash = none) :=
  C4_fingerprint_invariants_amended ["t.csv"] 8
    [97, 44, 98, 10, 49, 44, 50, 10] [97, 44, 98, 10, 49, 44, 50, 10]
    "csv" normOff

/-- Claim C5: with a non-empty key_columns list, a row's composite key is
the row's values for the named columns existing in the header, joined by
a pipe in config order, with a value absent from the row contributing
the empty string. REFUTED on absent values: `filter_map` skips an
out-of-range `record.get(i)` entirely, contributing neither a value nor
a separator — headers a,b,c with keys [a,c] and the one-field row [x]
produce the key "x", not "x|". -/
theorem C5_structured_key_counterexample :
    composite_key (key_indices ["a", "b", "c"] ["a", "c"]) ["x"] = "x" ∧
    specCompositeKey ["a", "b", "c"] ["a", "c"] ["x"] = "x|" ∧
    ("x" : String) ≠ "x|" := by
  decide

/-- Claim C5 (amended): with a non-empty key_columns list and distinct
header names, a row's composite key is the row's values for the named
columns existing in the header, in config order, joined by a pipe, with
columns whose value is absent from the row omitted from the join
entirely. -/
theorem C5_structured_key_amended (headers key_columns record : List String)
    (hnd : headers.Nodup) (hne : key_columns ≠ []) :
    composite_key (key_indices headers key_columns) record =
      String.intercalate "|"
        (key_columns.filterMap (fun k => row_lookup (row_map headers record) k)) := by
  unfold composite_key key_indices
  rw [if_neg (by simpa [List.isEmpty_iff] using hne)]
  rw [List.filterMap_filterMap]
  have hfun : (fun k => (headers.findIdx? (fun h => h = k)).bind
      (fun i => record.get? i)) =
      (fun k => row_lookup (row_map headers record) k) := by
    funext k
    rw [row_map_eq_rowMapAux, row_lookup_rowMapAux headers record k hnd]
  rw [hfun]

/-- Claim C5 witness: the amended key equation at the concrete
counterexample input. -/
theorem C5_structured_key_witness :
    composite_key (key_indices ["a", "b", "c"] ["a", "c"]) ["x"] =
      String.intercalate "|"
        (["a", "c"].filterMap
          (fun k => row_lookup (row_map ["a", "b", "c"] ["x"]) k)) :=
  C5_structured_key_amended ["a", "b", "c"] ["a", "c"] ["x"]
    (by decide) (by decide)

/-- Claim C7: for every candidate pair, a comparator failure (I/O or
parse error) produces an Error result carrying both file paths and the
error message, and the remaining pairs in the batch are still compared
and their results returned. CONFIRMED: the failing pair's slot holds the
Error result with both paths and the message, the batch keeps one result
per pair, and every other pair's result depends only on its own
comparator outcomes. -/
theorem C7_comparator_error_isolated (config : CompareConfig)
    (pairs : List CandidatePair) (i : Nat) (pair : CandidatePair) (e : String)
    (textRun : CandidatePair → Except String TextComparisonResult)
    (structRun : CandidatePair → Except String StructuredComparisonResult)
    (hi : pairs.get? i = some pair)
    (hx : pair.exact_hash_match = false)
    (ht : textRun pair = Except.error e)
    (hs : structRun pair = Except.error e) :
    (compare_batch pairs config textRun structRun).get? i =
      some (ComparisonResult.Error (pathDisplay pair.file1.path)
        (pathDisplay pair.file2.path) e) ∧
    (compare_batch pairs config textRun structRun).length = pairs.length ∧
    ∀ j q, pairs.get? j = some q →
      (compare_batch pairs config textRun structRun).get? j =
        some (compare_pair q config (textRun q) (structRun q)) := by
  have herr : compare_pair pair config (textRun pair) (structRun pair) =
      ComparisonResult.Error (pathDisplay pair.file1.path)
        (pathDisplay pair.file2.path) e := by
    unfold compare_pair
    rw [hx, ht, hs]
    simp only [Bool.false_eq_true, if_false]
    cases config.mode
    · cases auto_detect_mode pair.file1 pair.file2 <;> rfl
    · rfl
    · rfl
  refine ⟨?_, List.length_map _ _, ?_⟩
  · unfold compare_batch
    rw [List.get?_map, hi]
    simp only [Option.map_some']
    rw [herr]
  · intro j q hj
    unfold compare_batch
    rw [List.get?_map, hj]
    rfl

/-- Claim C7 witness: the theorem applied to a one-pair batch whose text
and structured comparators both fail with the message boom. -/
theorem C7_comparator_error_isolated_witness :
    (compare_batch [errPair] cfgKeyless (fun _ => Except.error "boom")
        (fun _ => Except.error "boom")).get? 0 =
      some (ComparisonResult.Error (pathDisplay errPair.file1.path)
        (pathDisplay errPair.file2.path) "boom") ∧
    (compare_batch [errPair] cfgKeyless (fun _ => Except.error "boom")
        (fun _ => Except.error "boom")).length = [errPair].length ∧
    ∀ j q, ([errPair] : List CandidatePair).get? j = some q →
      (compare_batch [errPair] cfgKeyless (fun _ => Except.error "boom")
          (fun _ => Except.error "boom")).get? j =
        some (compare_pair q cfgKeyless (Except.error "boom")
          (Except.error "boom")) :=
  C7_comparator_error_isolated cfgKeyless [errPair] 0 errPair "boom"
    (fun _ => Except.error "boom") (fun _ => Except.error "boom")
    rfl rfl rfl rfl

/-- Claim C8: when the emitted diff body reaches max_diff_bytes,
emission stops, diff_truncated is set, and the literal marker line is
appended; diff_truncated is true only when the body reached
max_diff_bytes. REFUTED in the first direction: the cap is only checked
before a hunk and before a change, so a body that reaches exactly
max_diff_bytes (here 30 bytes) on its final change ends with the flag
false and no marker. -/
theorem C8_diff_truncation_counterexample :
    (compare_text_files diffE1 diffE2 cfgSmallDiff ["x"] ["y"]
        [(.Delete, "x\n"), (.Insert, "y\n")]
        [⟨"@@ -1 +1 @@", [(.Delete, "x\n"), (.Insert, "y\n")]⟩]).diff_truncated
      = false ∧
    (compare_text_files diffE1 diffE2 cfgSmallDiff ["x"] ["y"]
        [(.Delete, "x\n"), (.Insert, "y\n")]
        [⟨"@@ -1 +1 @@", [(.Delete, "x\n"), (.Insert, "y\n")]⟩]).detailed_diff
      = "--- a\n+++ b\n@@ -1 +1 @@\n-x\n+y\n" ∧
    cfgSmallDiff.max_diff_bytes ≤
      (compare_text_files diffE1 diffE2 cfgSmallDiff ["x"] ["y"]
        [(.Delete, "x\n"), (.Insert, "y\n")]
        [⟨"@@ -1 +1 @@", [(.Delete, "x\n"), (.Insert, "y\n")]⟩]).detailed_diff.length := by
  decide

/-- Claim C8 (amended): the unified-diff emission stops and sets the
truncation flag when a check before a hunk or before a change finds the
body at max_diff_bytes or more; whenever the flag is set the marker line
is appended and the body before the marker has at least max_diff_bytes
bytes; reaching max_diff_bytes on the final change sets no flag. -/
theorem C8_diff_truncation_amended (file1_name file2_name : String)
    (hunks : List Hunk) (max_bytes : Nat)
    (h : (generate_unified_diff file1_name file2_name hunks max_bytes).2 = true) :
    ∃ p, (generate_unified_diff file1_name file2_name hunks max_bytes).1 =
        p ++ "\n... [diff truncated] ...\n" ∧
      max_bytes ≤ p.length := by
  unfold generate_unified_diff at h ⊢
  by_cases htr : (emitHunks max_bytes
      ("--- " ++ file1_name ++ "\n" ++ "+++ " ++ file2_name ++ "\n")
      false hunks).2 = true
  · rw [if_pos htr] at h ⊢
    refine ⟨_, rfl, ?_⟩
    exact emitHunks_true_len max_bytes hunks
      ("--- " ++ file1_name ++ "\n" ++ "+++ " ++ file2_name ++ "\n")
      false (fun hf => by cases hf) htr
  · rw [if_neg htr] at h
    simp at h

/-- Claim C8 witness: the amended theorem at a tiny cap the headers
already exceed, so the first pre-hunk check truncates. -/
theorem C8_diff_truncation_witness :
    ∃ p, (generate_unified_diff "a" "b" [⟨"@@ -1 +1 @@", []⟩] 1).1 =
        p ++ "\n... [diff truncated] ...\n" ∧
      1 ≤ p.length :=
  C8_diff_truncation_amended "a" "b" [⟨"@@ -1 +1 @@", []⟩] 1 (by decide)

/-- Claim C9: every ComparisonResult variant — Text, Structured,
HashOnly, and Error — carries a linked_id formed from the first 16 hex
chars of the two content hashes joined by a colon, plus both stringified
paths. REFUTED for Error: the Error variant has no linked_id field at
all; the dispatcher builds it from the two paths and the message, and
the linked_id accessor falls back to file1_path, which differs from the
hash-derived id. -/
theorem C9_linked_id_counterexample :
    compare_pair errPair cfgKeyless (Except.error "boom") (Except.error "boom") =
      ComparisonResult.Error "e1.txt" "e2.txt" "boom" ∧
    (ComparisonResult.Error "e1.txt" "e2.txt" "boom").linkedId ≠
      mkLinkedId errF1.content_hash errF2.content_hash := by
  decide

/-- Claim C9 (amended): Text, Structured and HashOnly results carry a
linked_id formed by the first 16 hex chars of each file's content hash
joined by a colon, plus both stringified paths; the Error variant
carries both stringified paths and the message but no linked_id (its
accessor falls back to file1_path). -/
theorem C9_linked_id_amended :
    (∀ f1 f2 : FileEntry, (create_identical_result f1 f2).linkedId =
      mkLinkedId f1.content_hash f2.content_hash) ∧
    (∀ (f1 f2 : FileEntry) (config : CompareConfig) (lines1 lines2 : List String)
        (transcript : List (ChangeTag × String)) (hunks : List Hunk),
      (compare_text_files f1 f2 config lines1 lines2 transcript hunks).linked_id =
          mkLinkedId f1.content_hash f2.content_hash ∧
      (compare_text_files f1 f2 config lines1 lines2 transcript hunks).file1_path =
          pathDisplay f1.path ∧
      (compare_text_files f1 f2 config lines1 lines2 transcript hunks).file2_path =
          pathDisplay f2.path) ∧
    (∀ (f1 f2 : FileEntry) (config : CompareConfig)
        (headers1 : List String) (rows1 : List (List String))
        (headers2 : List String) (rows2 : List (List String)),
      (compare_structured_files f1 f2 config headers1 rows1 headers2
          rows2).linked_id = mkLinkedId f1.content_hash f2.content_hash ∧
      (compare_structured_files f1 f2 config headers1 rows1 headers2
          rows2).file1_path = pathDisplay f1.path ∧
      (compare_structured_files f1 f2 config headers1 rows1 headers2
          rows2).file2_path = pathDisplay f2.path) ∧
    (∀ p1 p2 e : String, (ComparisonResult.Error p1 p2 e).linkedId = p1) := by
  refine ⟨?_, ?_, ?_, ?_⟩
  · intro f1 f2
    unfold create_identical_result
    split
    · rfl
    · split <;> rfl
  · intro f1 f2 config lines1 lines2 transcript hunks
    exact ⟨rfl, rfl, rfl⟩
  · intro f1 f2 config headers1 rows1 headers2 rows2
    exact ⟨rfl, rfl, rfl⟩
  · intro p1 p2 e
    rfl

/-- Claim C10: for an exact-hash-matched pair of two structured files the
dispatcher shortcut sets file1_row_count, file2_row_count and
common_records all to file1's indexed line_count (which counts the
header line: the concrete header+2-row CSV indexes at line_count 3),
whereas a full table comparison of the same data reports the number of
keyed data records (2 for the same file), excluding the header.
CONFIRMED (an exact hash match makes the two line counts equal, which
the hypothesis reflects). -/
theorem C10_identical_shortcut_header_count (f1 f2 : FileEntry)
    (h1 : f1.file_type.is_structured = true)
    (h2 : f2.file_type.is_structured = true)
    (hlc : f2.line_count = f1.line_count) :
    (∃ r, create_identical_result f1 f2 = ComparisonResult.Structured r ∧
      r.file1_row_count = f1.line_count ∧
      r.file2_row_count = f1.line_count ∧
      r.common_records = f1.line_count) ∧
    (detect_file_type csvContent3 "csv").2.1 = 3 ∧
    (compare_structured_files csvEntryA csvEntryA cfgKeyless
        ["id", "name"] [["1", "alice"], ["2", "bob"]]
        ["id", "name"] [["1", "alice"], ["2", "bob"]]).file1_row_count = 2 ∧
    (compare_structured_files csvEntryA csvEntryA cfgKeyless
        ["id", "name"] [["1", "alice"], ["2", "bob"]]
        ["id", "name"] [["1", "alice"], ["2", "bob"]]).common_records = 2 := by
  refine ⟨?_, by decide, by decide, by decide⟩
  obtain ⟨p1, s1, ft1, e1, ch1, sh1, ss1, lc1, co1⟩ := f1
  obtain ⟨p2, s2, ft2, e2, ch2, sh2, ss2, lc2, co2⟩ := f2
  cases ft1 <;> cases ft2 <;> simp [FileType.is_structured] at h1 h2
  all_goals exact ⟨_, rfl, rfl, hlc, rfl⟩

/-- Claim C10 witness: the theorem applied to the concretely indexed CSV
entry paired with itself. -/
theorem C10_identical_shortcut_header_count_witness :
    (∃ r, create_identical_result csvEntryA csvEntryA =
        ComparisonResult.Structured r ∧
      r.file1_row_count = csvEntryA.line_count ∧
      r.file2_row_count = csvEntryA.line_count ∧
      r.common_records = csvEntryA.line_count) ∧
    (detect_file_type csvContent3 "csv").2.1 = 3 ∧
    (compare_structured_files csvEntryA csvEntryA cfgKeyless
        ["id", "name"] [["1", "alice"], ["2", "bob"]]
        ["id", "name"] [["1", "alice"], ["2", "bob"]]).file1_row_count = 2 ∧
    (compare_structured_files csvEntryA csvEntryA cfgKeyless
        ["id", "name"] [["1", "alice"], ["2", "bob"]]
        ["id", "name"] [["1", "alice"], ["2", "bob"]]).common_records = 2 :=
  C10_identical_shortcut_header_count csvEntryA csvEntryA
    (by decide) (by decide) rfl

/-- Claim C6: a file whose 8 KiB probe contains no zero byte is always
classified Csv, Tsv, or Text — never Binary. REFUTED: `read_line`
returns `Err` on invalid UTF-8 and `detect_file_type` folds that error
into `has_null_byte`; the one-byte file 0xFF has no zero byte yet is
classified Binary. -/
theorem C6_no_zero_byte_counterexample :
    ([255] : List Nat).contains 0 = false ∧
    (detect_file_type [255] "txt").1 = FileType.Binary := by
  decide

/-- Claim C6 (amended): a file all of whose probed lines are valid UTF-8
and contain no zero byte is classified Csv, Tsv, or Text — never
Binary. -/
theorem C6_no_zero_byte_amended (content : List Nat) (ext : String)
    (h : ∀ l ∈ probedLines (splitLinesInclusive content) 0,
      utf8Valid l = true ∧ l.contains 0 = false) :
    (detect_file_type content ext).1 ≠ FileType.Binary :=
  classify_not_binary _ ext
    (probeLoop_no_null (splitLinesInclusive content) 0 0 [] (by omega) h)

/-- Claim C6 witness: the amended theorem applied to the concrete CSV
content `a,b\n1,2\n` with extension csv. -/
theorem C6_no_zero_byte_witness :
    (detect_file_type [97, 44, 98, 10, 49, 44, 50, 10] "csv").1 ≠
      FileType.Binary :=
  C6_no_zero_byte_amended [97, 44, 98, 10, 49, 44, 50, 10] "csv" (by decide)

end CompareIt
